import Mathlib

/-!
Verification development for the Paper-Protector firmware core:
the serial message bus (`SerialPubSub.cpp`) and the moisture measurement
engine (`MoistureSensor.cpp`).  C strings are modelled as `List Char`
(the characters up to the NUL terminator), `float` values as `ℚ`,
`uint16_t` channel readings as `Nat`, and the 32-bit `millis()` clock as
`Nat` values combined with explicit unsigned 32-bit subtraction.
Hardware effects (LED writes, sensor read attempts, error publishes,
delays) are recorded as an explicit event trace, and each fallible
`readAllChannels` call takes its outcome from an oracle list of
`Option Nat` NIR-channel values (`none` = read failure).
-/

namespace PaperProtector

/-! ## Message bus (`SerialPubSub.h` / `SerialPubSub.cpp`) -/

/-- `MAX_SUBSCRIPTIONS` from `SerialPubSub.h`. -/
def MAX_SUBSCRIPTIONS : Nat := 16

/-- `MAX_TOPIC_LENGTH` from `SerialPubSub.h`. -/
def MAX_TOPIC_LENGTH : Nat := 24

/-- `MAX_MESSAGE_LENGTH` from `SerialPubSub.h` (receive-buffer capacity). -/
def MAX_MESSAGE_LENGTH : Nat := 64

/-- A subscription-table entry (`struct Subscription`).  The callback is a
handler identifier; `none` models a null function pointer. -/
structure Subscription where
  topic : List Char
  callback : Option Nat
  active : Bool
deriving DecidableEq, Repr

/-- The table produced by the `SerialPubSub()` constructor: every slot
inactive with empty topic and null callback. -/
def initTable : List Subscription :=
  List.replicate MAX_SUBSCRIPTIONS { topic := [], callback := none, active := false }

/-- `SerialPubSub::sendMessage`: returns the bytes written to the serial
port.  An empty (or null) topic, or a topic containing `':'`, emits
nothing; otherwise the frame is `topic ++ ":" ++ payload ++ "\n"`. -/
def sendMessage (topic payload : List Char) : List Char :=
  if topic = [] then []
  else if ':' ∈ topic then []
  else topic ++ [':'] ++ payload ++ ['\n']

/-- `SerialPubSub::publish(const char*, const char*)`: returns the C++
return value together with the bytes emitted. -/
def publish (topic payload : List Char) : Bool × List Char :=
  if topic = [] then (false, [])
  else (true, sendMessage topic payload)

/-- One step of the byte-accumulation loop in `SerialPubSub::loop`.
The state is the receive buffer contents (`bufferIndex` = its length);
the second component lists the complete lines handed to `parseMessage`. -/
def loopStep (buf : List Char) (c : Char) : List Char × List (List Char) :=
  if c = '\n' ∨ c = '\r' then
    if 0 < buf.length then ([], [buf]) else (buf, [])
  else
    if buf.length < MAX_MESSAGE_LENGTH - 1 then (buf ++ [c], [])
    else ([], [])

/-- `SerialPubSub::loop` over a byte sequence: threads the receive buffer
through `loopStep` and collects every line passed to `parseMessage`. -/
def ingest (buf : List Char) : List Char → List Char × List (List Char)
  | [] => (buf, [])
  | c :: rest =>
    let s1 := loopStep buf c
    let s2 := ingest s1.1 rest
    (s2.1, s1.2 ++ s2.2)

/-- The `strchr(message, ':')` split in `SerialPubSub::parseMessage`:
the part before the first `':'` and the part after it. -/
def splitFirstColon : List Char → Option (List Char × List Char)
  | [] => none
  | c :: rest =>
    if c = ':' then some ([], rest)
    else
      match splitFirstColon rest with
      | none => none
      | some (t, p) => some (c :: t, p)

/-- `SerialPubSub::parseMessage`: `none` when the line is dropped (no
delimiter, empty topic, or over-length topic); otherwise the
(topic, payload) pair that is dispatched. -/
def parseMessage (message : List Char) : Option (List Char × List Char) :=
  match splitFirstColon message with
  | none => none
  | some (t, p) =>
    if t.length = 0 ∨ MAX_TOPIC_LENGTH ≤ t.length then none
    else some (t, p)

/-- The per-entry match test used by the dispatch loop in `parseMessage`
and by `findSubscription`: `subscriptions[i].active && strcmp(...) == 0`. -/
def subMatches (s : Subscription) (topic : List Char) : Bool :=
  s.active && s.topic == topic

/-- The dispatch loop at the end of `SerialPubSub::parseMessage`: the
callback invocations performed, in table order, as (handler, payload)
pairs.  Entries with a null callback are matched but not invoked. -/
def dispatchMsg (subs : List Subscription) (topic payload : List Char) :
    List (Nat × List Char) :=
  subs.filterMap fun s =>
    if subMatches s topic then
      match s.callback with
      | some h => some (h, payload)
      | none => none
    else none

/-- Full inbound pipeline from an empty receive buffer: ingest the bytes,
parse each completed line, and dispatch every parsed message. -/
def runBus (subs : List Subscription) (bytes : List Char) :
    List (Nat × List Char) :=
  ((ingest [] bytes).2.filterMap parseMessage).flatMap fun tp =>
    dispatchMsg subs tp.1 tp.2

/-- Replacing the callback of the first active subscription matching
`topic` (the `existingIndex >= 0` branch of `SerialPubSub::subscribe`). -/
def setHandler : List Subscription → List Char → Option Nat → List Subscription
  | [], _, _ => []
  | s :: rest, topic, cb =>
    if subMatches s topic then { s with callback := cb } :: rest
    else s :: setHandler rest topic cb

/-- Writing a new entry into the first free slot (`findFreeSlot` plus the
final assignments of `SerialPubSub::subscribe`); `none` when the table is
full. -/
def addFirstFree : List Subscription → Subscription → Option (List Subscription)
  | [], _ => none
  | s :: rest, ns =>
    if s.active = false then some (ns :: rest)
    else (addFirstFree rest ns).map (s :: ·)

/-- `SerialPubSub::subscribe`: returns the updated table and the C++
return value. -/
def subscribe (subs : List Subscription) (topic : List Char) (cb : Option Nat) :
    List Subscription × Bool :=
  if topic = [] ∨ cb = none then (subs, false)
  else if MAX_TOPIC_LENGTH ≤ topic.length then (subs, false)
  else if subs.any (fun s => subMatches s topic) then (setHandler subs topic cb, true)
  else
    match addFirstFree subs { topic := topic, callback := cb, active := true } with
    | none => (subs, false)
    | some subs' => (subs', true)

/-- Number of active subscriptions for `topic`. -/
def countActive (subs : List Subscription) (topic : List Char) : Nat :=
  (subs.filter fun s => subMatches s topic).length

/-! ## Moisture measurement engine (`MoistureSensor.h` / `MoistureSensor.cpp`) -/

/-- `as7341_gain_t`: the ordered gain enumeration of the AS7341 sensor. -/
inductive Gain
  | AS7341_GAIN_0_5X
  | AS7341_GAIN_1X
  | AS7341_GAIN_2X
  | AS7341_GAIN_4X
  | AS7341_GAIN_8X
  | AS7341_GAIN_16X
  | AS7341_GAIN_32X
  | AS7341_GAIN_64X
  | AS7341_GAIN_128X
  | AS7341_GAIN_256X
  | AS7341_GAIN_512X
deriving DecidableEq, Repr

open Gain

/-- `MoistureSensor::decreaseGain`: step one level down; the minimum
gain maps to itself. -/
def decreaseGain : Gain → Gain
  | AS7341_GAIN_512X => AS7341_GAIN_256X
  | AS7341_GAIN_256X => AS7341_GAIN_128X
  | AS7341_GAIN_128X => AS7341_GAIN_64X
  | AS7341_GAIN_64X => AS7341_GAIN_32X
  | AS7341_GAIN_32X => AS7341_GAIN_16X
  | AS7341_GAIN_16X => AS7341_GAIN_8X
  | AS7341_GAIN_8X => AS7341_GAIN_4X
  | AS7341_GAIN_4X => AS7341_GAIN_2X
  | AS7341_GAIN_2X => AS7341_GAIN_1X
  | AS7341_GAIN_1X => AS7341_GAIN_0_5X
  | AS7341_GAIN_0_5X => AS7341_GAIN_0_5X

/-- `struct CalibrationData` from `MoistureSensor.h`. -/
structure CalibrationData where
  dryBaseline : ℚ
  wetBaseline : ℚ
  timestamp : Nat
  isValid : Bool
deriving DecidableEq, Repr

/-- The calibration state set by the `MoistureSensor` constructor. -/
def initCalibration : CalibrationData :=
  { dryBaseline := 0, wetBaseline := 0, timestamp := 0, isValid := false }

/-- `struct MeasurementResult` from `MoistureSensor.h`. -/
structure MeasurementResult where
  paperPresent : Bool
  moisturePercent : ℚ
  isValid : Bool
deriving DecidableEq, Repr

/-- Hardware / publish effects performed by the engine, in order. -/
inductive Event
  | ledSet (state : Bool)
  | sensorRead
  | errorPub (msg : String)
  | delayMs (ms : Nat)
deriving DecidableEq, Repr

/-- The mutable engine state threaded through `measure`. -/
structure MState where
  irled : Bool
  gain : Gain
  calibration : CalibrationData
  lastMeasurementTime : Nat
deriving DecidableEq, Repr

/-- `MIN_MEASUREMENT_INTERVAL` (ms) from `MoistureSensor.h`. -/
def MIN_MEASUREMENT_INTERVAL : Nat := 500

/-- `MAX_RETRIES` from `MoistureSensor.h`. -/
def MAX_RETRIES : Nat := 3

/-- `RETRY_DELAY_MS` from `MoistureSensor.h`. -/
def RETRY_DELAY_MS : Nat := 50

/-- `SATURATION_THRESHOLD` from `MoistureSensor.h`. -/
def SATURATION_THRESHOLD : Nat := 65000

/-- Unsigned 32-bit subtraction `a - b`, as computed on the
`unsigned long` values returned by `millis()`. -/
def usub32 (a b : Nat) : Nat :=
  (a % 2 ^ 32 + (2 ^ 32 - b % 2 ^ 32)) % 2 ^ 32

/-- `MoistureSensor::detectPaper`: reflected intensity must exceed
`ambient * 1.5`. -/
def detectPaper (intensity ambient : ℚ) : Bool :=
  decide (ambient * (3 / 2) < intensity)

/-- Clamp of the computed moisture to `[0, 100]` (the final `if` chain of
`MoistureSensor::calculateMoisture`). -/
def clampPercent (x : ℚ) : ℚ :=
  if x < 0 then 0 else if 100 < x then 100 else x

/-- `MoistureSensor::calculateMoisture` as a function of the calibration
state and the reflected intensity. -/
def calculateMoisture (cal : CalibrationData) (intensity : ℚ) : ℚ :=
  clampPercent
    (if cal.isValid = true ∧ cal.wetBaseline < cal.dryBaseline then
      if (1 / 10 : ℚ) < cal.dryBaseline - cal.wetBaseline then
        100 * (cal.dryBaseline - intensity) / (cal.dryBaseline - cal.wetBaseline)
      else 0
    else
      100 * ((1500 : ℚ) - intensity) / ((1500 : ℚ) - 300))

/-- Modelled from the spec: the moisture-percentage formula of §4.3,
"if calibration valid and D > W and (D−W) > a small epsilon:
`moisture% = clamp(100 × (D − I) / (D − W), 0, 100)`; else (uncalibrated
or degenerate baselines): fall back to fixed default baselines in the
same formula, still clamped to [0,100]".  Used only to compare the spec's
claimed behaviour against `calculateMoisture`. -/
def calculateMoistureSpec (cal : CalibrationData) (intensity : ℚ) : ℚ :=
  if cal.isValid = true ∧ cal.wetBaseline < cal.dryBaseline ∧
      (1 / 10 : ℚ) < cal.dryBaseline - cal.wetBaseline then
    clampPercent
      (100 * (cal.dryBaseline - intensity) / (cal.dryBaseline - cal.wetBaseline))
  else
    clampPercent (100 * ((1500 : ℚ) - intensity) / ((1500 : ℚ) - 300))

/-- `MoistureSensor::handleSaturation` on the NIR channel value: returns
(needs-remeasure, new gain, published errors). -/
def handleSaturation (g : Gain) (nir : Nat) : Bool × Gain × List Event :=
  if SATURATION_THRESHOLD ≤ nir then
    if decreaseGain g ≠ g then (true, decreaseGain g, [])
    else (false, g, [Event.errorPub "Sensor saturated at minimum gain"])
  else (false, g, [])

/-- Pop the next `readAllChannels` outcome from the oracle; an exhausted
oracle behaves as a read failure. -/
def takeRead : List (Option Nat) → Option Nat × List (Option Nat)
  | [] => (none, [])
  | r :: rest => (r, rest)

/-- The `delay(RETRY_DELAY_MS)` guarded by `retry < MAX_RETRIES - 1`:
with `n` iterations remaining after this one, the delay happens iff
`1 ≤ n`. -/
def retryDelay (n : Nat) : List Event :=
  if 1 ≤ n then [Event.delayMs RETRY_DELAY_MS] else []

/-- One iteration of the retry loop in `MoistureSensor::measure`
(steps 1–4 of the body).  Returns `some result` on the success path and
`none` when the body hits a `continue`, together with the gain after the
iteration, the events performed, and the unconsumed oracle. -/
def attempt (g : Gain) (cal : CalibrationData) (reads : List (Option Nat)) :
    Option MeasurementResult × Gain × List Event × List (Option Nat) :=
  let t1 := takeRead reads
  match t1.1 with
  | none => (none, g, [Event.ledSet false, Event.sensorRead], t1.2)
  | some nir1 =>
    let h1 := handleSaturation g nir1
    if h1.1 = true then
      (none, h1.2.1, [Event.ledSet false, Event.sensorRead] ++ h1.2.2, t1.2)
    else
      let ambient : ℚ := (nir1 : ℚ)
      let t2 := takeRead t1.2
      match t2.1 with
      | none =>
        (none, h1.2.1,
          [Event.ledSet false, Event.sensorRead] ++ h1.2.2 ++
            [Event.ledSet true, Event.sensorRead, Event.ledSet false], t2.2)
      | some nir2 =>
        let h2 := handleSaturation h1.2.1 nir2
        if h2.1 = true then
          (none, h2.2.1,
            [Event.ledSet false, Event.sensorRead] ++ h1.2.2 ++
              [Event.ledSet true, Event.sensorRead] ++ h2.2.2 ++
              [Event.ledSet false], t2.2)
        else
          let total : ℚ := (nir2 : ℚ)
          let reflected : ℚ := max (total - ambient) 0
          let paper := detectPaper reflected ambient
          (some
            { paperPresent := paper
              moisturePercent := if paper = true then calculateMoisture cal reflected else 0
              isValid := true },
            h2.2.1,
            [Event.ledSet false, Event.sensorRead] ++ h1.2.2 ++
              [Event.ledSet true, Event.sensorRead] ++ h2.2.2 ++
              [Event.ledSet false], t2.2)

/-- The retry loop of `MoistureSensor::measure`, recursing on the number
of iterations remaining.  The `led` argument is the `_irledState` on
entry (relevant only if the loop runs zero iterations, since every
`continue` path leaves the LED off).  Returns
(result, gain, final LED state, events). -/
def measureIterations :
    Nat → Bool → Gain → CalibrationData → List (Option Nat) →
      MeasurementResult × Gain × Bool × List Event
  | 0, led, g, _, _ =>
    ({ paperPresent := false, moisturePercent := 0, isValid := false }, g, led,
      [Event.errorPub "Sensor communication failed after retries"])
  | n + 1, _, g, cal, reads =>
    match attempt g cal reads with
    | (some res, g', evs, _) => (res, g', false, evs)
    | (none, g', evs, rest) =>
      let k := measureIterations n false g' cal rest
      (k.1, k.2.1, k.2.2.1, evs ++ retryDelay n ++ k.2.2.2)

/-- `MoistureSensor::measure`: rate-limit check followed by the retry
loop.  `currentTime` is the `millis()` value at the call; `reads` is the
oracle of `readAllChannels` outcomes. -/
def measure (st : MState) (currentTime : Nat) (reads : List (Option Nat)) :
    MeasurementResult × MState × List Event :=
  if usub32 currentTime st.lastMeasurementTime < MIN_MEASUREMENT_INTERVAL then
    ({ paperPresent := false, moisturePercent := 0, isValid := false }, st,
      [Event.errorPub "Measurement too frequent"])
  else
    let k := measureIterations MAX_RETRIES st.irled st.gain st.calibration reads
    (k.1,
      { st with gain := k.2.1, irled := k.2.2.1, lastMeasurementTime := currentTime },
      k.2.2.2)

/-- `MoistureSensor::readNIRIntensity`: `-1` on a failed read, otherwise
the illuminated-minus-ambient NIR intensity floored at zero. -/
def readNIRIntensity (r1 r2 : Option Nat) : ℚ :=
  match r1 with
  | none => -1
  | some a =>
    match r2 with
    | none => -1
    | some t => max ((t : ℚ) - (a : ℚ)) 0

/-- `MoistureSensor::calibrateDry`: returns the new calibration state,
the C++ return value, and the error messages published. -/
def calibrateDry (cal : CalibrationData) (now : Nat) (r1 r2 : Option Nat) :
    CalibrationData × Bool × List String :=
  let intensity := readNIRIntensity r1 r2
  if intensity < 0 then
    (cal, false, ["Failed to read NIR intensity during dry calibration"])
  else
    let cal1 := { cal with dryBaseline := intensity, timestamp := now }
    (if 0 < cal1.wetBaseline then { cal1 with isValid := true } else cal1, true, [])

/-- `MoistureSensor::calibrateWet`: returns the new calibration state,
the C++ return value, and the error messages published. -/
def calibrateWet (cal : CalibrationData) (now : Nat) (r1 r2 : Option Nat) :
    CalibrationData × Bool × List String :=
  let intensity := readNIRIntensity r1 r2
  if intensity < 0 then
    (cal, false, ["Failed to read NIR intensity during wet calibration"])
  else
    let cal1 := { cal with wetBaseline := intensity, timestamp := now }
    (if 0 < cal1.dryBaseline then { cal1 with isValid := true } else cal1, true, [])

/-! ## Helper lemmas -/

theorem splitFirstColon_append_colon (T P : List Char) (h : ':' ∉ T) :
    splitFirstColon (T ++ ':' :: P) = some (T, P) := by
  induction T with
  | nil => simp [splitFirstColon]
  | cons c rest ih =>
    have hc : c ≠ ':' := fun e => h (by simp [e])
    have hr : ':' ∉ rest := fun m => h (by simp [m])
    simp [splitFirstColon, hc, ih hr]

theorem splitFirstColon_topic_no_colon :
    ∀ msg t p, splitFirstColon msg = some (t, p) → ':' ∉ t := by
  intro msg
  induction msg with
  | nil => intro t p h; simp [splitFirstColon] at h
  | cons c rest ih =>
    intro t p h
    simp only [splitFirstColon] at h
    by_cases hc : c = ':'
    · rw [if_pos hc] at h
      cases h
      simp
    · rw [if_neg hc] at h
      cases hsp : splitFirstColon rest with
      | none => rw [hsp] at h; cases h
      | some tp =>
        rw [hsp] at h
        cases h
        intro hmem
        rcases List.mem_cons.mp hmem with h1 | h1
        · exact hc h1.symm
        · exact ih tp.1 tp.2 (by rw [hsp]) h1

theorem ingest_append (buf xs ys : List Char) :
    ingest buf (xs ++ ys)
      = ((ingest (ingest buf xs).1 ys).1,
         (ingest buf xs).2 ++ (ingest (ingest buf xs).1 ys).2) := by
  induction xs generalizing buf with
  | nil => simp [ingest]
  | cons c rest ih =>
    simp only [List.cons_append, ingest, List.append_eq]
    rw [ih]
    simp [List.append_assoc]

theorem ingest_no_terminator (l : List Char) :
    ∀ buf : List Char, (∀ c ∈ l, c ≠ '\n' ∧ c ≠ '\r') →
      buf.length + l.length ≤ MAX_MESSAGE_LENGTH - 1 →
      ingest buf l = (buf ++ l, []) := by
  induction l with
  | nil => intro buf _ _; simp [ingest]
  | cons c rest ih =>
    intro buf hterm hlen
    have hc := hterm c (by simp)
    have hlt : buf.length < MAX_MESSAGE_LENGTH - 1 := by
      simp only [List.length_cons] at hlen
      omega
    have hstep : loopStep buf c = (buf ++ [c], []) := by
      simp [loopStep, hc.1, hc.2, hlt]
    have hrest : ingest (buf ++ [c]) rest = (buf ++ [c] ++ rest, []) := by
      refine ih (buf ++ [c]) (fun d hd => hterm d (by simp [hd])) ?_
      simp only [List.length_append, List.length_cons, List.length_nil] at hlen ⊢
      omega
    simp [ingest, hstep, hrest]

theorem dispatchMsg_eq_filter (subs : List Subscription) (topic payload : List Char) :
    dispatchMsg subs topic payload
      = (subs.filter fun s => subMatches s topic).filterMap
          (fun s => s.callback.map fun h => (h, payload)) := by
  induction subs with
  | nil => rfl
  | cons s rest ih =>
    by_cases h : subMatches s topic
    · cases hc : s.callback <;>
        simp [dispatchMsg, List.filter_cons, List.filterMap_cons, h, hc] <;>
        simpa [dispatchMsg] using ih
    · simp only [dispatchMsg, List.filterMap_cons, List.filter_cons] at ih ⊢
      simp [h, ih]

theorem subMatches_set_callback (s : Subscription) (cb : Option Nat) (t : List Char) :
    subMatches { s with callback := cb } t = subMatches s t := rfl

theorem countActive_cons (s : Subscription) (rest : List Subscription) (t : List Char) :
    countActive (s :: rest) t
      = (if subMatches s t then 1 else 0) + countActive rest t := by
  by_cases h : subMatches s t <;> simp [countActive, List.filter_cons, h, Nat.add_comm]

theorem countActive_setHandler (subs : List Subscription) (topic : List Char)
    (cb : Option Nat) (t : List Char) :
    countActive (setHandler subs topic cb) t = countActive subs t := by
  induction subs with
  | nil => rfl
  | cons s rest ih =>
    by_cases h : subMatches s topic
    · simp [setHandler, h, countActive_cons, subMatches_set_callback]
    · simp [setHandler, h, countActive_cons, ih]

theorem countActive_pos_of_any (subs : List Subscription) (topic : List Char)
    (h : subs.any (fun s => subMatches s topic) = true) :
    1 ≤ countActive subs topic := by
  induction subs with
  | nil => simp at h
  | cons s rest ih =>
    rw [countActive_cons]
    rcases List.any_eq_true.mp h with ⟨x, hx, hmx⟩
    rcases List.mem_cons.mp hx with rfl | hx'
    · simp [hmx]
    · have := ih (List.any_eq_true.mpr ⟨x, hx', hmx⟩)
      omega

theorem countActive_zero_of_any_false (subs : List Subscription) (topic : List Char)
    (h : subs.any (fun s => subMatches s topic) = false) :
    countActive subs topic = 0 := by
  induction subs with
  | nil => rfl
  | cons s rest ih =>
    simp only [List.any_cons, Bool.or_eq_false_iff] at h
    rw [countActive_cons, h.1, ih h.2]
    simp

theorem no_match_of_countActive_zero (subs : List Subscription) (topic : List Char) :
    countActive subs topic = 0 → ∀ s ∈ subs, subMatches s topic = false := by
  induction subs with
  | nil => intro _ s hs; simp at hs
  | cons x rest ih =>
    intro h s hs
    rw [countActive_cons] at h
    by_cases hx : subMatches x topic
    · rw [if_pos hx] at h; omega
    · rw [if_neg hx] at h
      rcases List.mem_cons.mp hs with rfl | hs'
      · simp only [Bool.not_eq_true] at hx; exact hx
      · exact ih (by omega) s hs'

theorem setHandler_callback (subs : List Subscription) (topic : List Char)
    (cb : Option Nat) (hle : countActive subs topic ≤ 1) :
    ∀ s ∈ setHandler subs topic cb, subMatches s topic = true → s.callback = cb := by
  induction subs with
  | nil => intro s hs; simp [setHandler] at hs
  | cons x rest ih =>
    intro s hs hm
    by_cases hx : subMatches x topic
    · rw [countActive_cons, if_pos hx] at hle
      have hrest0 : countActive rest topic = 0 := by omega
      simp only [setHandler, if_pos hx] at hs
      rcases List.mem_cons.mp hs with rfl | hs'
      · rfl
      · have := no_match_of_countActive_zero rest topic hrest0 s hs'
        rw [this] at hm
        cases hm
    · rw [countActive_cons, if_neg hx] at hle
      simp only [setHandler, if_neg hx] at hs
      rcases List.mem_cons.mp hs with rfl | hs'
      · rw [hm] at hx; cases hx rfl
      · exact ih (by omega) s hs' hm

theorem addFirstFree_none (subs : List Subscription) (ns : Subscription)
    (h : ∀ s ∈ subs, s.active = true) :
    addFirstFree subs ns = none := by
  induction subs with
  | nil => rfl
  | cons s rest ih =>
    have hs : s.active = true := h s (by simp)
    simp [addFirstFree, hs, ih fun x hx => h x (by simp [hx])]

theorem countActive_addFirstFree (subs : List Subscription) (ns : Subscription) :
    ∀ subs' : List Subscription, addFirstFree subs ns = some subs' →
      ∀ t, countActive subs' t
        = countActive subs t + (if subMatches ns t then 1 else 0) := by
  induction subs with
  | nil => intro subs' h; simp [addFirstFree] at h
  | cons s rest ih =>
    intro subs' h t
    by_cases hs : s.active = false
    · simp only [addFirstFree, if_pos hs, Option.some.injEq] at h
      subst h
      have : subMatches s t = false := by simp [subMatches, hs]
      rw [countActive_cons, countActive_cons, this]
      simp [Nat.add_comm]
    · simp only [addFirstFree, if_neg hs] at h
      rcases Option.map_eq_some'.mp h with ⟨rest', hrest, rfl⟩
      rw [countActive_cons, countActive_cons, ih rest' hrest t]
      omega

theorem measureIterations_succ (n : Nat) (led : Bool) (g : Gain)
    (cal : CalibrationData) (reads : List (Option Nat)) :
    measureIterations (n + 1) led g cal reads
      = match attempt g cal reads with
        | (some res, g', evs, _) => (res, g', false, evs)
        | (none, g', evs, rest) =>
          let k := measureIterations n false g' cal rest
          (k.1, k.2.1, k.2.2.1, evs ++ retryDelay n ++ k.2.2.2) := rfl

theorem measureIterations_led_off (n : Nat) :
    ∀ (led : Bool) (g : Gain) (cal : CalibrationData) (reads : List (Option Nat)),
      (measureIterations (n + 1) led g cal reads).2.2.1 = false := by
  induction n with
  | zero =>
    intro led g cal reads
    rcases h : attempt g cal reads with ⟨o, g', evs, rest⟩
    cases o with
    | none => rw [measureIterations_succ, h]; rfl
    | some r => rw [measureIterations_succ, h]
  | succ m ih =>
    intro led g cal reads
    rcases h : attempt g cal reads with ⟨o, g', evs, rest⟩
    cases o with
    | none =>
      rw [measureIterations_succ, h]
      exact ih false g' cal rest
    | some r => rw [measureIterations_succ, h]

/-! ## Claim theorems -/

/-- C5 counterexample: publishing on the topic ":" returns `true` — the
claim demands that a topic containing the delimiter is rejected with
`false`.  (No bytes are emitted, so only the return value diverges.) -/
theorem publish_colon_topic_claim_false :
    (publish [':'] ['x']).1 = true ∧ (publish [':'] ['x']).2 = [] := by decide

/-- C5 (amended): `publish` returns `false` exactly for an empty (null)
topic; for a non-empty topic containing ':' it returns `true` although
nothing is emitted (`sendMessage` drops the frame silently); for a
non-empty topic without ':' it emits `topic ++ ":" ++ payload ++ "\n"`
and returns `true`. -/
theorem publish_framing_cases (topic payload : List Char) :
    (topic = [] → publish topic payload = (false, []))
    ∧ (topic ≠ [] → ':' ∈ topic → publish topic payload = (true, []))
    ∧ (topic ≠ [] → ':' ∉ topic →
        publish topic payload = (true, topic ++ [':'] ++ payload ++ ['\n'])) := by
  refine ⟨?_, ?_, ?_⟩
  · intro h; simp [publish, h]
  · intro h1 h2; simp [publish, sendMessage, h1, h2]
  · intro h1 h2; simp [publish, sendMessage, h1, h2]

/-- C5 witness: a concrete non-empty colon-free topic is framed and
accepted. -/
theorem publish_framing_cases_witness :
    publish ['a'] ['b'] = (true, ['a', ':', 'b', '\n']) := by
  have h := (publish_framing_cases ['a'] ['b']).2.2 (by decide) (by decide)
  simpa using h

/-- C3 (code bug): ingesting a 67-byte line (64 × 'a' then "t:x") with no
terminator inside overflows the 63-byte receive buffer, but the bytes
after the overflow point are accumulated afresh, so the tail "t:x" of the
over-long line is parsed and dispatched as a message (topic "t",
payload "x") when the terminator arrives, instead of the whole over-long
line being discarded as the code's own overflow comment states. -/
theorem ingest_overflow_tail_dispatched :
    (ingest [] (List.replicate 64 'a' ++ ['t', ':', 'x', '\n'])).2.filterMap parseMessage
      = [(['t'], ['x'])] := by decide

/-- C1 counterexample: at the minimum gain with both exposures saturated
(NIR = 65000), `measure` publishes "Sensor saturated at minimum gain"
yet proceeds with the saturated readings and returns a success result
(`isValid = true`) on the very first attempt — no retry is consumed
(no retry delay occurs) and the attempt is not treated as failed. -/
theorem measure_min_gain_saturation_claim_false :
    (measure ⟨false, Gain.AS7341_GAIN_0_5X, initCalibration, 0⟩ 1000
        [some 65000, some 65000]).1.isValid = true
    ∧ Event.errorPub "Sensor saturated at minimum gain"
        ∈ (measure ⟨false, Gain.AS7341_GAIN_0_5X, initCalibration, 0⟩ 1000
            [some 65000, some 65000]).2.2
    ∧ Event.delayMs RETRY_DELAY_MS
        ∉ (measure ⟨false, Gain.AS7341_GAIN_0_5X, initCalibration, 0⟩ 1000
            [some 65000, some 65000]).2.2 := by decide

/-- C2 counterexample: a `measure` call whose hardware reads all fail
returns invalid, yet a call 300 ms later is still rate-limited — the
minimum interval is enforced from the last attempt that passed the rate
check, not from the last successful measurement as the claim states. -/
theorem measure_rate_limit_after_failure_claim_false :
    (measure ⟨false, Gain.AS7341_GAIN_128X, initCalibration, 0⟩ 1000
        [none, none, none]).1.isValid = false
    ∧ (measure ((measure ⟨false, Gain.AS7341_GAIN_128X, initCalibration, 0⟩ 1000
          [none, none, none]).2.1) 1300 [some 100, some 400]).2.2
        = [Event.errorPub "Measurement too frequent"]
    ∧ (measure ((measure ⟨false, Gain.AS7341_GAIN_128X, initCalibration, 0⟩ 1000
          [none, none, none]).2.1) 1300 [some 100, some 400]).1.isValid = false := by
  decide

/-- C4 counterexample: with a valid calibration whose baselines differ by
less than the 0.1 epsilon (D = 1, W = 0.95), `calculateMoisture` returns
0 while the claim demands the default-baseline formula value 100. -/
theorem calculateMoisture_epsilon_claim_false :
    calculateMoisture ⟨1, 19/20, 0, true⟩ 300 = 0
    ∧ calculateMoistureSpec ⟨1, 19/20, 0, true⟩ 300 = 100
    ∧ calculateMoisture ⟨1, 19/20, 0, true⟩ 300
        ≠ calculateMoistureSpec ⟨1, 19/20, 0, true⟩ 300 := by
  have h1 : calculateMoisture ⟨1, 19/20, 0, true⟩ 300 = 0 := by
    norm_num [calculateMoisture, clampPercent]
  have h2 : calculateMoistureSpec ⟨1, 19/20, 0, true⟩ 300 = 100 := by
    norm_num [calculateMoistureSpec, clampPercent]
  refine ⟨h1, h2, ?_⟩
  rw [h1, h2]
  norm_num

/-- C6 counterexample: a rate-limited `measure` call entered with the IR
LED on (as after an "irled/control on" command) returns with the LED
still on — the rate-limit exit path does not touch the LED. -/
theorem measure_rate_limit_leaves_led_on :
    (measure ⟨true, Gain.AS7341_GAIN_128X, initCalibration, 1000⟩ 1200 []).2.1.irled
      = true := by decide

/-- C7 counterexample: for topic "t" and payload "a\nb" (which contains a
line terminator), ingesting the published frame dispatches the subscriber
of "t" exactly once but with payload "a", not the original payload. -/
theorem publish_ingest_roundtrip_claim_false :
    runBus [⟨['t'], some 7, true⟩] (publish ['t'] ['a', '\n', 'b']).2 = [(7, ['a'])]
    ∧ (7, ['a', '\n', 'b'])
        ∉ runBus [⟨['t'], some 7, true⟩] (publish ['t'] ['a', '\n', 'b']).2 := by
  decide

/-- C9 counterexample: a successful wet calibration that measures zero
intensity stores baseline 0; a subsequent successful dry calibration then
leaves `isValid = false`, although both baselines have been set at least
once by successful calibration operations. -/
theorem calibrate_zero_intensity_claim_false :
    (calibrateWet initCalibration 100 (some 5) (some 5)).2.1 = true
    ∧ (calibrateDry ((calibrateWet initCalibration 100 (some 5) (some 5)).1) 200
        (some 0) (some 100)).2.1 = true
    ∧ (calibrateDry ((calibrateWet initCalibration 100 (some 5) (some 5)).1) 200
        (some 0) (some 100)).1.isValid = false := by
  have hr1 : readNIRIntensity (some 5) (some 5) = 0 := by
    simp [readNIRIntensity]
  have hr2 : readNIRIntensity (some 0) (some 100) = 100 := by
    simp only [readNIRIntensity, Nat.cast_ofNat, Nat.cast_zero, sub_zero]
    exact max_eq_left (by norm_num)
  have hw : calibrateWet initCalibration 100 (some 5) (some 5)
      = (⟨0, 0, 100, false⟩, true, []) := by
    simp [calibrateWet, hr1, initCalibration]
  have hd : calibrateDry (⟨0, 0, 100, false⟩ : CalibrationData) 200 (some 0) (some 100)
      = (⟨100, 0, 200, false⟩, true, []) := by
    simp [calibrateDry, hr2]
  rw [hw]
  simp [hd]

/-- C2 (amended): a rate-limited call (less than 500 ms of 32-bit
`millis` time since the last call that passed the rate check) publishes
only the rate-limit error, performs no hardware access (no sensor read,
no LED actuation), returns invalid and leaves the state unchanged; but
the reference timestamp is updated by every call that passes the rate
check — successful or not — so a call following only failed measurements
is still rate-limited. -/
theorem measure_rate_limit_behavior (st : MState) (t : Nat) (reads : List (Option Nat)) :
    (usub32 t st.lastMeasurementTime < MIN_MEASUREMENT_INTERVAL →
       measure st t reads
         = ({ paperPresent := false, moisturePercent := 0, isValid := false }, st,
            [Event.errorPub "Measurement too frequent"])
       ∧ Event.sensorRead ∉ (measure st t reads).2.2
       ∧ ∀ b, Event.ledSet b ∉ (measure st t reads).2.2)
    ∧ (MIN_MEASUREMENT_INTERVAL ≤ usub32 t st.lastMeasurementTime →
       (measure st t reads).2.1.lastMeasurementTime = t) := by
  constructor
  · intro h
    have he : measure st t reads
        = ({ paperPresent := false, moisturePercent := 0, isValid := false }, st,
           [Event.errorPub "Measurement too frequent"]) := by
      simp [measure, h]
    refine ⟨he, ?_, ?_⟩ <;> simp [he]
  · intro h
    simp [measure, not_lt.mpr h]

/-- C2 witness: a call 100 ms after the previous attempt is rejected
without touching the hardware. -/
theorem measure_rate_limit_behavior_witness :
    measure ⟨false, Gain.AS7341_GAIN_128X, initCalibration, 0⟩ 100 []
      = ({ paperPresent := false, moisturePercent := 0, isValid := false },
         ⟨false, Gain.AS7341_GAIN_128X, initCalibration, 0⟩,
         [Event.errorPub "Measurement too frequent"]) :=
  ((measure_rate_limit_behavior ⟨false, Gain.AS7341_GAIN_128X, initCalibration, 0⟩
      100 []).1 (by decide)).1

/-- C6 (amended): on every exit path of a call that passes the rate
limit — success, read-failure retry exhaustion, saturation handling —
the IR LED is off when `measure` returns, regardless of the LED state on
entry; a rate-limited call, however, does not touch the LED, so it
returns with the LED still in its entry state. -/
theorem measure_led_off_on_exit (st : MState) (t : Nat) (reads : List (Option Nat)) :
    (MIN_MEASUREMENT_INTERVAL ≤ usub32 t st.lastMeasurementTime →
       (measure st t reads).2.1.irled = false)
    ∧ (usub32 t st.lastMeasurementTime < MIN_MEASUREMENT_INTERVAL →
       (measure st t reads).2.1.irled = st.irled) := by
  constructor
  · intro h
    simp only [measure, if_neg (not_lt.mpr h)]
    exact measureIterations_led_off 2 st.irled st.gain st.calibration reads
  · intro h
    simp [measure, h]

/-- C6 witness: a non-rate-limited call entered with the LED on returns
with the LED off. -/
theorem measure_led_off_on_exit_witness :
    (measure ⟨true, Gain.AS7341_GAIN_128X, initCalibration, 0⟩ 1000 []).2.1.irled
      = false :=
  (measure_led_off_on_exit ⟨true, Gain.AS7341_GAIN_128X, initCalibration, 0⟩
      1000 []).1 (by decide)

/-- C4 (amended): if calibration is valid, D > W and D − W > 0.1, the
result is `clamp(100 (D − I) / (D − W), 0, 100)`; if calibration is
valid and D > W but D − W ≤ 0.1, the result is 0, not the
default-baseline formula; in all remaining cases the default baselines
D = 1500, W = 300 are used in the same clamped formula. -/
theorem calculateMoisture_cases (cal : CalibrationData) (I : ℚ) :
    (cal.isValid = true → cal.wetBaseline < cal.dryBaseline →
       (1/10 : ℚ) < cal.dryBaseline - cal.wetBaseline →
       calculateMoisture cal I
         = clampPercent
             (100 * (cal.dryBaseline - I) / (cal.dryBaseline - cal.wetBaseline)))
    ∧ (cal.isValid = true → cal.wetBaseline < cal.dryBaseline →
       cal.dryBaseline - cal.wetBaseline ≤ (1/10 : ℚ) →
       calculateMoisture cal I = 0)
    ∧ (¬ (cal.isValid = true ∧ cal.wetBaseline < cal.dryBaseline) →
       calculateMoisture cal I
         = clampPercent (100 * ((1500 : ℚ) - I) / ((1500 : ℚ) - 300))) := by
  refine ⟨?_, ?_, ?_⟩
  · intro h1 h2 h3
    simp only [calculateMoisture]
    rw [if_pos ⟨h1, h2⟩, if_pos h3]
  · intro h1 h2 h3
    simp only [calculateMoisture]
    rw [if_pos ⟨h1, h2⟩, if_neg (not_lt.mpr h3)]
    norm_num [clampPercent]
  · intro h
    simp only [calculateMoisture]
    rw [if_neg h]

/-- C4 witness: the spec's worked example — valid calibration D = 1500,
W = 300 and reflected intensity 900 give 50 %. -/
theorem calculateMoisture_cases_witness :
    calculateMoisture ⟨1500, 300, 0, true⟩ 900 = 50 := by
  have h := (calculateMoisture_cases ⟨1500, 300, 0, true⟩ 900).1 rfl
    (by norm_num) (by norm_num)
  rw [h]
  norm_num [clampPercent]

/-- C9 (corrected): on a failed reflectance read, each calibration
operation reports its error and leaves the whole calibration record
(baselines and validity flag) unchanged.  On success, `calibrateDry`
stores the measured intensity as the dry baseline (leaving the wet one
unchanged) and validity becomes true iff it already was true or the wet
baseline is positive — symmetrically for `calibrateWet` — so validity
tracks positive baselines, and a successful calibration that measures
zero intensity does not count as setting its baseline. -/
theorem calibrate_atomic_validity (cal : CalibrationData) (now : Nat) (r1 r2 : Option Nat) :
    (readNIRIntensity r1 r2 < 0 →
       calibrateDry cal now r1 r2
         = (cal, false, ["Failed to read NIR intensity during dry calibration"])
       ∧ calibrateWet cal now r1 r2
         = (cal, false, ["Failed to read NIR intensity during wet calibration"]))
    ∧ (0 ≤ readNIRIntensity r1 r2 →
       ((calibrateDry cal now r1 r2).1.isValid = true
          ↔ (cal.isValid = true ∨ 0 < cal.wetBaseline))
       ∧ (calibrateDry cal now r1 r2).1.dryBaseline = readNIRIntensity r1 r2
       ∧ (calibrateDry cal now r1 r2).1.wetBaseline = cal.wetBaseline
       ∧ ((calibrateWet cal now r1 r2).1.isValid = true
          ↔ (cal.isValid = true ∨ 0 < cal.dryBaseline))
       ∧ (calibrateWet cal now r1 r2).1.wetBaseline = readNIRIntensity r1 r2
       ∧ (calibrateWet cal now r1 r2).1.dryBaseline = cal.dryBaseline) := by
  constructor
  · intro h
    constructor <;> simp [calibrateDry, calibrateWet, h]
  · intro h
    have h' : ¬ readNIRIntensity r1 r2 < 0 := not_lt.mpr h
    refine ⟨?_, ?_, ?_, ?_, ?_, ?_⟩ <;>
      simp only [calibrateDry, calibrateWet, if_neg h'] <;>
      by_cases hw : 0 < cal.wetBaseline <;> by_cases hd : 0 < cal.dryBaseline <;>
      simp [hw, hd]

/-- C9 witness: a successful dry calibration from the initial state keeps
validity false because the wet baseline is not yet positive. -/
theorem calibrate_atomic_validity_witness :
    (calibrateDry initCalibration 5 (some 0) (some 100)).1.isValid = true
      ↔ (initCalibration.isValid = true ∨ 0 < initCalibration.wetBaseline) :=
  ((calibrate_atomic_validity initCalibration 5 (some 0) (some 100)).2
    (le_max_right _ _)).1

/-- C1 (corrected): when a sample is saturated while the gain is already
at the minimum level, `handleSaturation` publishes "Sensor saturated at
minimum gain" and returns false, so the attempt is not counted as a
failed attempt: the measurement proceeds with the saturated reading and —
when both exposures are saturated at the minimum gain — the loop returns
a success result computed from them on that same attempt, consuming no
retry; `measure` still terminates. -/
theorem measure_min_gain_saturation_proceeds (g : Gain) (v w : Nat) (n : Nat)
    (led : Bool) (cal : CalibrationData) (rest : List (Option Nat))
    (hmin : decreaseGain g = g)
    (hv1 : SATURATION_THRESHOLD ≤ v)
    (hw1 : SATURATION_THRESHOLD ≤ w) (hw2 : w < 65536) :
    handleSaturation g v
      = (false, g, [Event.errorPub "Sensor saturated at minimum gain"])
    ∧ measureIterations (n + 1) led g cal (some v :: some w :: rest)
      = ({ paperPresent := false, moisturePercent := 0, isValid := true }, g, false,
         [Event.ledSet false, Event.sensorRead,
          Event.errorPub "Sensor saturated at minimum gain",
          Event.ledSet true, Event.sensorRead,
          Event.errorPub "Sensor saturated at minimum gain",
          Event.ledSet false]) := by
  have hs1 : handleSaturation g v
      = (false, g, [Event.errorPub "Sensor saturated at minimum gain"]) := by
    simp [handleSaturation, hv1, hmin]
  have hs2 : handleSaturation g w
      = (false, g, [Event.errorPub "Sensor saturated at minimum gain"]) := by
    simp [handleSaturation, hw1, hmin]
  have hpaper : detectPaper (max ((w : ℚ) - (v : ℚ)) 0) (v : ℚ) = false := by
    simp only [detectPaper, decide_eq_false_iff_not, not_lt]
    have hv' : (65000 : ℚ) ≤ (v : ℚ) := by exact_mod_cast hv1
    have hw' : (w : ℚ) < 65536 := by exact_mod_cast hw2
    have h1 : max ((w : ℚ) - (v : ℚ)) 0 ≤ 536 := by
      apply max_le <;> linarith
    linarith
  refine ⟨hs1, ?_⟩
  rw [measureIterations_succ]
  have hatt : attempt g cal (some v :: some w :: rest)
      = (some { paperPresent := false, moisturePercent := 0, isValid := true }, g,
         [Event.ledSet false, Event.sensorRead,
          Event.errorPub "Sensor saturated at minimum gain",
          Event.ledSet true, Event.sensorRead,
          Event.errorPub "Sensor saturated at minimum gain",
          Event.ledSet false], rest) := by
    simp only [attempt, takeRead, hs1, hs2]
    simp [hpaper]
  rw [hatt]

/-- C1 witness: at the minimum gain with both exposures reading 65000 the
retry loop succeeds on the first attempt, reporting the saturation error
twice and delaying never. -/
theorem measure_min_gain_saturation_proceeds_witness :
    measureIterations 3 false Gain.AS7341_GAIN_0_5X initCalibration
        [some 65000, some 65000]
      = ({ paperPresent := false, moisturePercent := 0, isValid := true },
         Gain.AS7341_GAIN_0_5X, false,
         [Event.ledSet false, Event.sensorRead,
          Event.errorPub "Sensor saturated at minimum gain",
          Event.ledSet true, Event.sensorRead,
          Event.errorPub "Sensor saturated at minimum gain",
          Event.ledSet false]) :=
  (measure_min_gain_saturation_proceeds Gain.AS7341_GAIN_0_5X 65000 65000 2 false
    initCalibration [] (by decide) (by decide) (by decide) (by decide)).2

/-- C7 (corrected): the round-trip identity holds for frames that survive
the byte transport: for every topic T of length 1..23 containing no ':'
and no line terminator, and every payload P containing no line
terminator, with the frame fitting the receive buffer
(|T| + 1 + |P| ≤ 63), `publish (T, P)` succeeds and ingesting the
produced bytes from an empty buffer dispatches exactly one callback
invocation per active subscriber of T, each receiving payload exactly P.
A payload containing a terminator, or an over-long frame, breaks the
round trip. -/
theorem publish_ingest_roundtrip (subs : List Subscription) (T P : List Char)
    (hT1 : 1 ≤ T.length) (hT2 : T.length ≤ 23)
    (hTc : ':' ∉ T) (hTn : '\n' ∉ T) (hTr : '\r' ∉ T)
    (hPn : '\n' ∉ P) (hPr : '\r' ∉ P)
    (hlen : T.length + 1 + P.length ≤ 63) :
    (publish T P).1 = true
    ∧ runBus subs (publish T P).2
        = (subs.filter fun s => subMatches s T).filterMap
            (fun s => s.callback.map fun h => (h, P)) := by
  have hTne : T ≠ [] := by
    intro h
    rw [h] at hT1
    simp at hT1
  have hframe : (publish T P).2 = (T ++ ':' :: P) ++ ['\n'] := by
    simp [publish, sendMessage, hTne, hTc]
  have hp : (publish T P).1 = true := by simp [publish, hTne]
  refine ⟨hp, ?_⟩
  rw [hframe]
  have hnoterm : ∀ c ∈ T ++ ':' :: P, c ≠ '\n' ∧ c ≠ '\r' := by
    intro c hc
    rcases List.mem_append.mp hc with h | h
    · exact ⟨fun e => hTn (e ▸ h), fun e => hTr (e ▸ h)⟩
    · rcases List.mem_cons.mp h with rfl | h
      · constructor <;> decide
      · exact ⟨fun e => hPn (e ▸ h), fun e => hPr (e ▸ h)⟩
  have hlen' : ([] : List Char).length + (T ++ ':' :: P).length
      ≤ MAX_MESSAGE_LENGTH - 1 := by
    simp only [List.length_nil, List.length_append, List.length_cons, MAX_MESSAGE_LENGTH]
    omega
  have hing1 : ingest [] (T ++ ':' :: P) = (T ++ ':' :: P, []) :=
    ingest_no_terminator _ _ hnoterm hlen'
  have hterm : ingest (T ++ ':' :: P) ['\n'] = ([], [T ++ ':' :: P]) := by
    have hpos : 0 < (T ++ ':' :: P).length := by simp
    simp [ingest, loopStep, hpos]
  have hing : ingest [] ((T ++ ':' :: P) ++ ['\n']) = ([], [T ++ ':' :: P]) := by
    rw [ingest_append, hing1]
    simp [hterm]
  have hparse : parseMessage (T ++ ':' :: P) = some (T, P) := by
    have hc : ¬ (T.length = 0 ∨ MAX_TOPIC_LENGTH ≤ T.length) := by
      rintro (h | h)
      · exact hTne (List.length_eq_zero.mp h)
      · simp only [MAX_TOPIC_LENGTH] at h
        omega
    unfold parseMessage
    rw [splitFirstColon_append_colon T P hTc]
    exact if_neg hc
  unfold runBus
  rw [hing]
  simp [hparse, dispatchMsg_eq_filter]

/-- C7 witness: topic "t", payload "ab", one active subscriber. -/
theorem publish_ingest_roundtrip_witness :
    runBus [⟨['t'], some 7, true⟩] (publish ['t'] ['a', 'b']).2
      = [(7, ['a', 'b'])] := by
  have h := (publish_ingest_roundtrip [⟨['t'], some 7, true⟩] ['t'] ['a', 'b']
    (by decide) (by decide) (by decide) (by decide) (by decide) (by decide)
    (by decide) (by decide)).2
  rw [h]
  decide

/-- C8 (confirmed): the subscription table keeps at most one active entry
per distinct topic: `subscribe` preserves the invariant on every branch;
re-subscribing an already-subscribed (valid) topic succeeds and leaves
exactly one active subscription for that topic, whose handler is the
newly supplied one; and subscribing a new topic when every slot is
occupied fails without mutating the table. -/
theorem subscribe_unique_topic_invariant (subs : List Subscription)
    (topic : List Char) (cb : Nat)
    (hinv : ∀ t, countActive subs t ≤ 1) :
    (∀ t, countActive (subscribe subs topic (some cb)).1 t ≤ 1)
    ∧ (topic ≠ [] → topic.length < MAX_TOPIC_LENGTH →
        subs.any (fun s => subMatches s topic) = true →
        (subscribe subs topic (some cb)).2 = true
        ∧ countActive (subscribe subs topic (some cb)).1 topic = 1
        ∧ ∀ s ∈ (subscribe subs topic (some cb)).1,
            subMatches s topic = true → s.callback = some cb)
    ∧ ((∀ s ∈ subs, s.active = true) →
        subs.any (fun s => subMatches s topic) = false →
        subscribe subs topic (some cb) = (subs, false)) := by
  by_cases hval : topic = [] ∨ (some cb : Option Nat) = none
  · have he : subscribe subs topic (some cb) = (subs, false) := by
      simp only [subscribe, if_pos hval]
    refine ⟨fun t => by rw [he]; exact hinv t, ?_, fun _ _ => he⟩
    intro hne _ _
    rcases hval with h | h
    · exact absurd h hne
    · cases h
  · by_cases hlen : MAX_TOPIC_LENGTH ≤ topic.length
    · have he : subscribe subs topic (some cb) = (subs, false) := by
        simp only [subscribe, if_neg hval, if_pos hlen]
      refine ⟨fun t => by rw [he]; exact hinv t, ?_, fun _ _ => he⟩
      intro _ h2 _
      omega
    · by_cases hany : subs.any (fun s => subMatches s topic) = true
      · have he : subscribe subs topic (some cb)
            = (setHandler subs topic (some cb), true) := by
          simp only [subscribe, if_neg hval, if_neg hlen, hany, if_pos]
        refine ⟨?_, ?_, ?_⟩
        · intro t
          rw [he]
          have := countActive_setHandler subs topic (some cb) t
          simpa [this] using hinv t
        · intro _ _ _
          rw [he]
          refine ⟨rfl, ?_, ?_⟩
          · have hge := countActive_pos_of_any subs topic hany
            have hle := hinv topic
            have := countActive_setHandler subs topic (some cb) topic
            simp only []
            omega
          · exact setHandler_callback subs topic (some cb) (hinv topic)
        · intro _ hanyf
          rw [hanyf] at hany
          cases hany
      · have hany' : subs.any (fun s => subMatches s topic) = false :=
          Bool.eq_false_iff.mpr hany
        rcases haf : addFirstFree subs { topic := topic, callback := some cb, active := true }
          with _ | subs'
        · have he : subscribe subs topic (some cb) = (subs, false) := by
            simp only [subscribe, if_neg hval, if_neg hlen, hany', haf]
            simp
          refine ⟨fun t => by rw [he]; exact hinv t, ?_, fun _ _ => he⟩
          intro _ _ h3
          rw [h3] at hany'
          cases hany'
        · have he : subscribe subs topic (some cb) = (subs', true) := by
            simp only [subscribe, if_neg hval, if_neg hlen, hany', haf]
            simp
          refine ⟨?_, ?_, ?_⟩
          · intro t
            rw [he]
            rw [countActive_addFirstFree subs _ subs' haf t]
            by_cases hteq : topic = t
            · subst hteq
              have hm : subMatches
                  { topic := topic, callback := some cb, active := true } topic = true := by
                simp [subMatches]
              rw [countActive_zero_of_any_false subs topic hany', hm]
              simp
            · have hm : subMatches
                  { topic := topic, callback := some cb, active := true } t = false := by
                simp [subMatches, hteq]
              rw [hm]
              simpa using hinv t
          · intro _ _ h3
            rw [h3] at hany'
            cases hany'
          · intro hall _
            rw [addFirstFree_none subs _ hall] at haf
            cases haf

/-- C8 witness: re-subscribing topic "a" with handler 2 in a table where
it is already subscribed with handler 1 succeeds and leaves a single
active subscription for "a". -/
theorem subscribe_unique_topic_invariant_witness :
    (subscribe [⟨['a'], some 1, true⟩, ⟨[], none, false⟩] ['a'] (some 2)).2 = true
    ∧ countActive (subscribe [⟨['a'], some 1, true⟩, ⟨[], none, false⟩] ['a']
        (some 2)).1 ['a'] = 1 := by
  have hinv : ∀ t, countActive [(⟨['a'], some 1, true⟩ : Subscription),
      ⟨[], none, false⟩] t ≤ 1 := by
    intro t
    by_cases h : (['a'] : List Char) = t <;>
      simp [countActive, List.filter_cons, subMatches, h]
  have h := (subscribe_unique_topic_invariant
    [⟨['a'], some 1, true⟩, ⟨[], none, false⟩] ['a'] 2 hinv).2.1
    (by decide) (by decide) (by decide)
  exact ⟨h.1, h.2.1⟩

/-- C10 (confirmed): `subscribe` validates only emptiness, length and
handler presence, so a topic containing ':' is accepted (into the
constructor-fresh table it always succeeds when its length is below the
maximum); but every topic parsed from an inbound line is the prefix
before the first ':' and never contains ':', so no ingested message ever
matches an active subscription whose topic contains ':' — such a
subscription occupies a slot but is unreachable. -/
theorem colon_topic_subscription_unreachable (s : Subscription)
    (hcolon : ':' ∈ s.topic) :
    (∀ msg t p, parseMessage msg = some (t, p) → ':' ∉ t)
    ∧ (∀ msg t p, parseMessage msg = some (t, p) → subMatches s t = false)
    ∧ (s.topic.length < MAX_TOPIC_LENGTH →
        ∀ cb : Nat, (subscribe initTable s.topic (some cb)).2 = true) := by
  have hparse : ∀ msg t p, parseMessage msg = some (t, p) → ':' ∉ t := by
    intro msg t p h
    unfold parseMessage at h
    rcases hsp : splitFirstColon msg with _ | ⟨t', p'⟩
    · rw [hsp] at h
      cases h
    · rw [hsp] at h
      have h' : (if t'.length = 0 ∨ MAX_TOPIC_LENGTH ≤ t'.length then none
          else some (t', p')) = some (t, p) := h
      by_cases hc : t'.length = 0 ∨ MAX_TOPIC_LENGTH ≤ t'.length
      · rw [if_pos hc] at h'
        cases h'
      · rw [if_neg hc] at h'
        injection h' with h'
        rw [Prod.mk.injEq] at h'
        rw [← h'.1]
        exact splitFirstColon_topic_no_colon msg t' p' hsp
  refine ⟨hparse, ?_, ?_⟩
  · intro msg t p h
    have hnc := hparse msg t p h
    have hne : s.topic ≠ t := fun e => hnc (e ▸ hcolon)
    simp [subMatches, hne]
  · intro hlen cb
    have hne : s.topic ≠ [] := List.ne_nil_of_mem hcolon
    have hany : initTable.any (fun x => subMatches x s.topic) = false := by
      apply List.any_eq_false.mpr
      intro x hx
      have hx' := List.eq_of_mem_replicate (hx : x ∈ initTable)
      rw [hx']
      simp [subMatches]
    have hhead : initTable
        = { topic := [], callback := none, active := false }
            :: List.replicate 15 { topic := [], callback := none, active := false } := rfl
    have hadd : addFirstFree initTable
        { topic := s.topic, callback := some cb, active := true }
        = some ({ topic := s.topic, callback := some cb, active := true }
            :: List.replicate 15 { topic := [], callback := none, active := false }) := by
      rw [hhead]
      simp [addFirstFree]
    have h1 : ¬ (s.topic = [] ∨ (some cb : Option Nat) = none) := by
      rintro (h | h)
      · exact hne h
      · cases h
    have h2 : ¬ MAX_TOPIC_LENGTH ≤ s.topic.length := not_le.mpr hlen
    simp only [subscribe, if_neg h1, if_neg h2, hany, hadd]
    simp

/-- C10 witness: the topic "a:b" is accepted by `subscribe` into the
fresh table. -/
theorem colon_topic_subscription_unreachable_witness :
    (subscribe initTable ['a', ':', 'b'] (some 1)).2 = true :=
  (colon_topic_subscription_unreachable ⟨['a', ':', 'b'], some 1, true⟩
    (by decide)).2.2 (by decide) 1

end PaperProtector
